import Mathlib

/-!
# Verification of the patient-registration backend

Shallow embedding of `backend/app/routes/patient_routes.py`,
`backend/app/models/patient.py`, `backend/app/database/postgres_db.py` and
`backend/app/database/mongo_db.py`.

The primary (PostgreSQL) store is modelled as a list of rows in insertion
order together with the auto-increment counter for the next id.  The
secondary (MongoDB) store is modelled as an optional list of documents:
`none` models the case where `init_mongodb` never succeeded, so
`get_patients_collection()` returns `None`.  Store faults that the Python
code can only observe as raised exceptions (a failing `db.commit()`, a
failing `insert_one`) are modelled as explicit boolean fault flags.
-/

namespace PatientApp

/-- The body of a `POST /patients/` request after JSON decoding: the four
fields of `PatientCreate` (`models/patient.py`). -/
structure PatientInput where
  name : String
  age : Int
  gender : String
  contact : String
deriving Repr, DecidableEq

/-- A row of the `patients` table (`PatientTable` in `postgres_db.py`):
`id` is the auto-assigned integer primary key. -/
structure PatientRow where
  id : Nat
  name : String
  age : Int
  gender : String
  contact : String
deriving Repr, DecidableEq

/-- The dictionary produced by `patient_to_dict` in `patient_routes.py`:
exactly the five keys `id`, `name`, `age`, `gender`, `contact`. -/
structure PatientDict where
  id : Nat
  name : String
  age : Int
  gender : String
  contact : String
deriving Repr, DecidableEq

/-- `patient_to_dict(patient)`: converts a row of the patients table to the
five-field dictionary used for responses and for the mirror write. -/
def patient_to_dict (patient : PatientRow) : PatientDict :=
  { id := patient.id
    name := patient.name
    age := patient.age
    gender := patient.gender
    contact := patient.contact }

/-- A document of the MongoDB `patients` collection as written by
`create_patient`: `patient_to_dict(db_patient)` with a `created_at`
timestamp added before `insert_one`. -/
structure MirrorDoc where
  data : PatientDict
  created_at : String
deriving Repr, DecidableEq

/-- The PostgreSQL `patients` table: rows in insertion order plus the
auto-increment counter supplying the next primary key. -/
structure PrimaryStore where
  rows : List PatientRow
  nextId : Nat
deriving Repr, DecidableEq

/-- Combined state of both stores.  `secondary = none` models
`mongo_db.db is None` (connection never initialized), in which case
`get_patients_collection()` returns `None`. -/
structure AppState where
  primary : PrimaryStore
  secondary : Option (List MirrorDoc)
deriving Repr, DecidableEq

/-- Fault injection for the two store calls of `create_patient`:
`primaryFails` models `db.commit()` raising, `mirrorFails` models
`insert_one` raising inside the `try` block. -/
structure Faults where
  primaryFails : Bool
  mirrorFails : Bool
deriving Repr, DecidableEq

/-! ## Validation (`PatientBase` in `models/patient.py`)

Pydantic checks every field of the request model independently and reports
one error entry per violated field.  Each `valid…` function below embeds
the `Field` constraints of the corresponding `PatientBase` field. -/

/-- `name: Field(min_length=2, max_length=100)`. -/
def validName (s : String) : Bool :=
  2 ≤ s.length && s.length ≤ 100

/-- `age: Field(gt=0, lt=150)`. -/
def validAge (a : Int) : Bool :=
  0 < a && a < 150

/-- `gender: GenderEnum` — the value must equal one of the enum values
`"male"`, `"female"`, `"other"` exactly (Pydantic enum coercion of a
`str, Enum` matches on the string value, case-sensitively). -/
def validGender (g : String) : Bool :=
  g == "male" || g == "female" || g == "other"

/-- `contact: Field(min_length=5, max_length=20)`. -/
def validContact (s : String) : Bool :=
  5 ≤ s.length && s.length ≤ 20

/-- The list of violated field names that Pydantic reports for a
`PatientCreate` body (one `{loc, msg, type}` entry per violated field,
all fields checked independently). -/
def validate_patient_base (p : PatientInput) : List String :=
  (if validName p.name then [] else ["name"]) ++
  (if validAge p.age then [] else ["age"]) ++
  (if validGender p.gender then [] else ["gender"]) ++
  (if validContact p.contact then [] else ["contact"])

/-! ## The endpoints (`patient_routes.py`) -/

/-- Outcome of `POST /patients/` as observed by the client. -/
inductive CreateResponse where
  /-- 201 with the `patient_to_dict` body of the committed row. -/
  | created (body : PatientDict)
  /-- 422 from FastAPI/Pydantic, one entry per violated field. -/
  | validationError (fields : List String)
  /-- 500: the unhandled exception from the primary-store write. -/
  | serverError
deriving Repr, DecidableEq

/-- `create_patient(patient, db)`:
1. FastAPI validates the body against `PatientCreate`; on violation a 422
   is returned and the handler never runs.
2. The row is inserted and committed in PostgreSQL (`db.add`, `db.commit`,
   `db.refresh` assigning the id); a failure raises out of the handler.
3. Inside `try`: if the MongoDB collection is available, the
   `patient_to_dict` dictionary plus a fresh `created_at` timestamp is
   inserted; any exception is caught and logged, and a `None` collection
   is skipped with a log line.
4. The `patient_to_dict` body of the committed row is returned with 201.
`ts` is the value of `datetime.datetime.now().isoformat()`. -/
def create_patient (patient : PatientInput) (f : Faults) (ts : String)
    (st : AppState) : CreateResponse × AppState :=
  match validate_patient_base patient with
  | [] =>
    if f.primaryFails then
      (CreateResponse.serverError, st)
    else
      let db_patient : PatientRow :=
        { id := st.primary.nextId
          name := patient.name
          age := patient.age
          gender := patient.gender
          contact := patient.contact }
      let primary' : PrimaryStore :=
        { rows := st.primary.rows ++ [db_patient]
          nextId := st.primary.nextId + 1 }
      let secondary' : Option (List MirrorDoc) :=
        match st.secondary with
        | none => none
        | some docs =>
          if f.mirrorFails then some docs
          else some (docs ++ [{ data := patient_to_dict db_patient
                                created_at := ts }])
      (CreateResponse.created (patient_to_dict db_patient),
        { primary := primary', secondary := secondary' })
  | errs => (CreateResponse.validationError errs, st)

/-- `db.query(PatientTable).offset(skip).limit(limit).all()`: the
offset/limit query executed against the primary store, returning rows in
insertion order (id ascending for the auto-increment key). -/
def primary_list (skip limit : Int) (ps : PrimaryStore) : List PatientRow :=
  (ps.rows.drop skip.toNat).take limit.toNat

/-- Outcome of `GET /patients/`. -/
inductive ListResponse where
  /-- 200 with the listed rows. -/
  | ok (rows : List PatientDict)
  /-- 422 from a declared query-parameter validator. -/
  | validationError (fields : List String)
deriving Repr, DecidableEq

/-- Range validators declared on the `skip` query parameter in the source
signature `skip: int = 0`: there are none (no `Query(ge=...)` bound). -/
def skipValidators : List (Int → Bool) := []

/-- Range validators declared on the `limit` query parameter in the source
signature `limit: int = 100`: there are none. -/
def limitValidators : List (Int → Bool) := []

/-- `read_patients(skip, limit, db)`: FastAPI applies whatever validators
the parameter declarations carry (here: none), then the handler forwards
`skip` and `limit` unchanged to the primary store's offset/limit query and
returns the `patient_to_dict` of each row.  The state of both stores is
returned alongside to make the absence of writes explicit. -/
def read_patients (skip limit : Int) (st : AppState) :
    ListResponse × AppState :=
  if skipValidators.all (fun v => v skip) &&
      limitValidators.all (fun v => v limit) then
    (ListResponse.ok ((primary_list skip limit st.primary).map
      patient_to_dict), st)
  else
    (ListResponse.validationError ["skip/limit"], st)

/-- `GET /patients/` with absent query parameters: FastAPI substitutes the
declared defaults `skip=0`, `limit=100`. -/
def read_patients_defaults (skip limit : Option Int) (st : AppState) :
    ListResponse × AppState :=
  read_patients (skip.getD 0) (limit.getD 100) st

/-- Outcome of `GET /patients/{patient_id}`. -/
inductive GetResponse where
  /-- 200 with the single record. -/
  | ok (body : PatientDict)
  /-- 404 with body `{detail: <detail>}`. -/
  | notFound (detail : String)
deriving Repr, DecidableEq

/-- `read_patient(patient_id, db)`:
`db.query(PatientTable).filter(PatientTable.id == patient_id).first()`;
`None` raises `HTTPException(404, "Patient not found")`, otherwise the
`patient_to_dict` of the row is returned.  The state of both stores is
returned alongside to make the absence of writes explicit. -/
def read_patient (patient_id : Int) (st : AppState) :
    GetResponse × AppState :=
  match st.primary.rows.find? (fun r => (r.id : Int) == patient_id) with
  | none => (GetResponse.notFound "Patient not found", st)
  | some r => (GetResponse.ok (patient_to_dict r), st)

/-! ## Helper lemmas about validation -/

lemma validName_iff (s : String) :
    validName s = true ↔ 2 ≤ s.length ∧ s.length ≤ 100 := by
  simp [validName]

lemma validAge_iff (a : Int) :
    validAge a = true ↔ 0 < a ∧ a < 150 := by
  simp [validAge]

lemma validGender_iff (g : String) :
    validGender g = true ↔ g = "male" ∨ g = "female" ∨ g = "other" := by
  simp [validGender, or_assoc]

lemma validContact_iff (s : String) :
    validContact s = true ↔ 5 ≤ s.length ∧ s.length ≤ 20 := by
  simp [validContact]

lemma validate_patient_base_eq_nil_of (p : PatientInput)
    (hn : 2 ≤ p.name.length) (hn' : p.name.length ≤ 100)
    (ha : 0 < p.age) (ha' : p.age < 150)
    (hg : p.gender = "male" ∨ p.gender = "female" ∨ p.gender = "other")
    (hc : 5 ≤ p.contact.length) (hc' : p.contact.length ≤ 20) :
    validate_patient_base p = [] := by
  have h1 : validName p.name = true := (validName_iff _).mpr ⟨hn, hn'⟩
  have h2 : validAge p.age = true := (validAge_iff _).mpr ⟨ha, ha'⟩
  have h3 : validGender p.gender = true := (validGender_iff _).mpr hg
  have h4 : validContact p.contact = true := (validContact_iff _).mpr ⟨hc, hc'⟩
  simp [validate_patient_base, h1, h2, h3, h4]

lemma mem_validate_name (p : PatientInput) :
    "name" ∈ validate_patient_base p ↔
      ¬(2 ≤ p.name.length ∧ p.name.length ≤ 100) := by
  rw [← validName_iff]
  cases h1 : validName p.name <;>
    cases h2 : validAge p.age <;>
      cases h3 : validGender p.gender <;>
        cases h4 : validContact p.contact <;>
          simp [validate_patient_base, h1, h2, h3, h4]

lemma mem_validate_age (p : PatientInput) :
    "age" ∈ validate_patient_base p ↔ ¬(0 < p.age ∧ p.age < 150) := by
  rw [← validAge_iff]
  cases h1 : validName p.name <;>
    cases h2 : validAge p.age <;>
      cases h3 : validGender p.gender <;>
        cases h4 : validContact p.contact <;>
          simp [validate_patient_base, h1, h2, h3, h4]

lemma mem_validate_gender (p : PatientInput) :
    "gender" ∈ validate_patient_base p ↔
      ¬(p.gender = "male" ∨ p.gender = "female" ∨ p.gender = "other") := by
  rw [← validGender_iff]
  cases h1 : validName p.name <;>
    cases h2 : validAge p.age <;>
      cases h3 : validGender p.gender <;>
        cases h4 : validContact p.contact <;>
          simp [validate_patient_base, h1, h2, h3, h4]

lemma mem_validate_contact (p : PatientInput) :
    "contact" ∈ validate_patient_base p ↔
      ¬(5 ≤ p.contact.length ∧ p.contact.length ≤ 20) := by
  rw [← validContact_iff]
  cases h1 : validName p.name <;>
    cases h2 : validAge p.age <;>
      cases h3 : validGender p.gender <;>
        cases h4 : validContact p.contact <;>
          simp [validate_patient_base, h1, h2, h3, h4]

/-! ## Claim theorems -/

/-- C1: for every registration input that passes validation and whose
primary-store write succeeds, any failure of the secondary mirror write —
a raising `insert_one` (`mirrorFails = true`) as well as a never
initialized secondary store (`secondary = none`) — is absorbed inside the
mirroring step: the response is still 201 with the same full-record body
`patient_to_dict` of the committed row, independent of the mirror fault
and of the secondary store's state. -/
theorem create_patient_mirror_fault_isolated (patient : PatientInput)
    (ts : String) (prim : PrimaryStore) (sec : Option (List MirrorDoc))
    (m : Bool) (hval : validate_patient_base patient = []) :
    (create_patient patient ⟨false, m⟩ ts ⟨prim, sec⟩).1 =
      CreateResponse.created
        { id := prim.nextId, name := patient.name, age := patient.age,
          gender := patient.gender, contact := patient.contact } := by
  simp [create_patient, hval, patient_to_dict]

/-- Witness for C1: a concrete valid registration with a failing mirror
write against an uninitialized secondary store still returns the 201
body. -/
theorem create_patient_mirror_fault_isolated_witness :
    (create_patient ⟨"Test Patient", 30, "male", "1234567890"⟩
        ⟨false, true⟩ "2024-01-01T00:00:00" ⟨⟨[], 1⟩, none⟩).1 =
      CreateResponse.created ⟨1, "Test Patient", 30, "male", "1234567890"⟩ :=
  create_patient_mirror_fault_isolated _ _ _ _ _ (by decide)

/-- C2: for every input with name length in [2,100], age in [1,149],
gender exactly one of "male"/"female"/"other", contact length in [5,20],
registration (with the primary write succeeding, under any mirror-fault
behaviour) returns 201 with a record carrying the system-assigned id
(the store's auto-increment counter) and the submitted field values
unchanged. -/
theorem create_patient_valid_succeeds (patient : PatientInput) (f : Faults)
    (ts : String) (st : AppState) (hf : f.primaryFails = false)
    (hn : 2 ≤ patient.name.length) (hn' : patient.name.length ≤ 100)
    (ha : 1 ≤ patient.age) (ha' : patient.age ≤ 149)
    (hg : patient.gender = "male" ∨ patient.gender = "female" ∨
      patient.gender = "other")
    (hc : 5 ≤ patient.contact.length) (hc' : patient.contact.length ≤ 20) :
    (create_patient patient f ts st).1 =
      CreateResponse.created
        { id := st.primary.nextId, name := patient.name, age := patient.age,
          gender := patient.gender, contact := patient.contact } := by
  have hval : validate_patient_base patient = [] :=
    validate_patient_base_eq_nil_of patient hn hn' (by omega) (by omega)
      hg hc hc'
  simp [create_patient, hval, hf, patient_to_dict]

/-- Witness for C2: the spec's example scenario: POST of a concrete valid
body yields 201 with id 1 and the submitted values. -/
theorem create_patient_valid_succeeds_witness :
    (create_patient ⟨"Test Patient", 30, "male", "1234567890"⟩
        ⟨false, false⟩ "2024-01-01T00:00:00" ⟨⟨[], 1⟩, some []⟩).1 =
      CreateResponse.created ⟨1, "Test Patient", 30, "male", "1234567890"⟩ :=
  create_patient_valid_succeeds _ _ _ _ (by decide) (by decide) (by decide)
    (by decide) (by decide) (Or.inl rfl) (by decide) (by decide)

/-- C4: if the primary-store write fails (`db.commit()` raises) on a
validated input, the whole operation yields the server-error outcome and
the state of both stores is unchanged — in particular no mirror write is
attempted and the secondary store keeps exactly its previous documents. -/
theorem create_patient_primary_failure_aborts (patient : PatientInput)
    (f : Faults) (ts : String) (st : AppState)
    (hval : validate_patient_base patient = [])
    (hf : f.primaryFails = true) :
    create_patient patient f ts st = (CreateResponse.serverError, st) ∧
    (create_patient patient f ts st).2.secondary = st.secondary := by
  refine ⟨?_, ?_⟩ <;> simp [create_patient, hval, hf]

/-- Witness for C4: a concrete valid registration against a failing
primary store returns the server error and leaves the one mirrored
document of the secondary store untouched. -/
theorem create_patient_primary_failure_aborts_witness :
    create_patient ⟨"Test Patient", 30, "male", "1234567890"⟩
        ⟨true, false⟩ "2024-01-01T00:00:00"
        ⟨⟨[], 1⟩, some [⟨⟨7, "A B", 40, "other", "55555"⟩, "T0"⟩]⟩ =
      (CreateResponse.serverError,
        ⟨⟨[], 1⟩, some [⟨⟨7, "A B", 40, "other", "55555"⟩, "T0"⟩]⟩) :=
  (create_patient_primary_failure_aborts _ _ _ _ (by decide) rfl).1

/-- C3: for every input violating at least one field constraint,
registration returns the 422 outcome carrying the violation list, that
list reports a violation for each invalid field and only those (each of
the four rules checked independently), and the state of both stores —
hence the primary store's listing — is unchanged. -/
theorem create_patient_invalid_rejected (patient : PatientInput)
    (f : Faults) (ts : String) (st : AppState) (skip limit : Int)
    (hinv : validate_patient_base patient ≠ []) :
    create_patient patient f ts st =
      (CreateResponse.validationError (validate_patient_base patient), st) ∧
    ("name" ∈ validate_patient_base patient ↔
      ¬(2 ≤ patient.name.length ∧ patient.name.length ≤ 100)) ∧
    ("age" ∈ validate_patient_base patient ↔
      ¬(0 < patient.age ∧ patient.age < 150)) ∧
    ("gender" ∈ validate_patient_base patient ↔
      ¬(patient.gender = "male" ∨ patient.gender = "female" ∨
        patient.gender = "other")) ∧
    ("contact" ∈ validate_patient_base patient ↔
      ¬(5 ≤ patient.contact.length ∧ patient.contact.length ≤ 20)) ∧
    read_patients skip limit (create_patient patient f ts st).2 =
      read_patients skip limit st := by
  have hmain : create_patient patient f ts st =
      (CreateResponse.validationError (validate_patient_base patient), st) := by
    rcases h : validate_patient_base patient with _ | ⟨e, es⟩
    · exact absurd h hinv
    · simp [create_patient, h]
  exact ⟨hmain, mem_validate_name patient, mem_validate_age patient,
    mem_validate_gender patient, mem_validate_contact patient,
    by rw [hmain]⟩

/-- Witness for C3: the spec's all-fields-invalid example
(name too short, age 200, gender "invalid", contact too short) is
rejected with all four fields reported and the store state unchanged. -/
theorem create_patient_invalid_rejected_witness :
    create_patient ⟨"T", 200, "invalid", "123"⟩ ⟨false, false⟩ "T0"
        ⟨⟨[], 1⟩, some []⟩ =
      (CreateResponse.validationError ["name", "age", "gender", "contact"],
        ⟨⟨[], 1⟩, some []⟩) ∧
    ("name" ∈ validate_patient_base ⟨"T", 200, "invalid", "123"⟩) ∧
    ("age" ∈ validate_patient_base ⟨"T", 200, "invalid", "123"⟩) ∧
    ("gender" ∈ validate_patient_base ⟨"T", 200, "invalid", "123"⟩) ∧
    ("contact" ∈ validate_patient_base ⟨"T", 200, "invalid", "123"⟩) := by
  have h := create_patient_invalid_rejected ⟨"T", 200, "invalid", "123"⟩
    ⟨false, false⟩ "T0" ⟨⟨[], 1⟩, some []⟩ 0 100 (by decide)
  exact ⟨by rw [h.1]; decide, h.2.1.mpr (by decide), h.2.2.1.mpr (by decide),
    h.2.2.2.1.mpr (by decide), h.2.2.2.2.1.mpr (by decide)⟩

/-- C7: when validation passes, the primary write commits and the mirror
write succeeds, the document appended to the secondary store is exactly
the `patient_to_dict` projection of the committed primary row (id, name,
age, gender, contact) together with `created_at` equal to the timestamp
generated at mirror-write time; the documents already present — with
their earlier `created_at` values — are left unchanged (and by the frame
property of the read operations no operation of this core rewrites
them). -/
theorem create_patient_mirror_doc (patient : PatientInput) (ts : String)
    (prim : PrimaryStore) (docs : List MirrorDoc)
    (hval : validate_patient_base patient = []) :
    (create_patient patient ⟨false, false⟩ ts ⟨prim, some docs⟩).2.primary.rows
      = prim.rows ++
        [⟨prim.nextId, patient.name, patient.age, patient.gender,
          patient.contact⟩] ∧
    (create_patient patient ⟨false, false⟩ ts ⟨prim, some docs⟩).1
      = CreateResponse.created (patient_to_dict
          ⟨prim.nextId, patient.name, patient.age, patient.gender,
            patient.contact⟩) ∧
    (create_patient patient ⟨false, false⟩ ts ⟨prim, some docs⟩).2.secondary
      = some (docs ++
          [⟨patient_to_dict
              ⟨prim.nextId, patient.name, patient.age, patient.gender,
                patient.contact⟩, ts⟩]) := by
  refine ⟨?_, ?_, ?_⟩ <;> simp [create_patient, hval, patient_to_dict]

/-- Witness for C7: a concrete successful registration appends exactly
the committed row's five fields plus the fresh timestamp after the
pre-existing document. -/
theorem create_patient_mirror_doc_witness :
    (create_patient ⟨"Test Patient", 30, "male", "1234567890"⟩
        ⟨false, false⟩ "2024-01-01T00:00:00"
        ⟨⟨[⟨1, "A B", 40, "other", "55555"⟩], 2⟩,
          some [⟨⟨1, "A B", 40, "other", "55555"⟩, "T0"⟩]⟩).2.secondary
      = some [⟨⟨1, "A B", 40, "other", "55555"⟩, "T0"⟩,
          ⟨⟨2, "Test Patient", 30, "male", "1234567890"⟩,
            "2024-01-01T00:00:00"⟩] := by
  have h := create_patient_mirror_doc
    ⟨"Test Patient", 30, "male", "1234567890"⟩ "2024-01-01T00:00:00"
    ⟨[⟨1, "A B", 40, "other", "55555"⟩], 2⟩
    [⟨⟨1, "A B", 40, "other", "55555"⟩, "T0"⟩] (by decide)
  rw [h.2.2]; rfl

/-- C5: on a primary store holding more than `limit` rows whose ids are
strictly increasing in insertion order (the auto-increment invariant),
`read_patients 0 limit` returns exactly `limit` records — the first
`limit` rows in order —, `read_patients limit limit` returns the next
slice of at most `limit` records, both slices keep the id-ascending
insertion order, the two slices share no record, and absent query
parameters default to skip 0 and limit 100. -/
theorem read_patients_pagination (st : AppState) (limit : Nat)
    (hlen : limit < st.primary.rows.length)
    (hord : st.primary.rows.Pairwise (fun a b => a.id < b.id)) :
    (read_patients 0 (limit : Int) st).1
      = ListResponse.ok ((st.primary.rows.take limit).map patient_to_dict) ∧
    (read_patients (limit : Int) (limit : Int) st).1
      = ListResponse.ok
          (((st.primary.rows.drop limit).take limit).map patient_to_dict) ∧
    (st.primary.rows.take limit).length = limit ∧
    ((st.primary.rows.drop limit).take limit).length ≤ limit ∧
    (st.primary.rows.take limit).Pairwise (fun a b => a.id < b.id) ∧
    ((st.primary.rows.drop limit).take limit).Pairwise
      (fun a b => a.id < b.id) ∧
    (∀ r ∈ st.primary.rows.take limit,
      r ∉ (st.primary.rows.drop limit).take limit) ∧
    read_patients_defaults none none st = read_patients 0 100 st := by
  have hnd : st.primary.rows.Nodup :=
    hord.imp fun hab he => absurd (he ▸ hab) (lt_irrefl _)
  refine ⟨?_, ?_, ?_, ?_, ?_, ?_, ?_, rfl⟩
  · simp [read_patients, skipValidators, limitValidators, primary_list]
  · simp [read_patients, skipValidators, limitValidators, primary_list]
  · rw [List.length_take]; omega
  · rw [List.length_take]; omega
  · exact hord.sublist (List.take_sublist _ _)
  · exact hord.sublist ((List.take_sublist _ _).trans (List.drop_sublist _ _))
  · have hcat : st.primary.rows.take limit ++
        (st.primary.rows.drop limit).take limit
        = st.primary.rows.take (limit + limit) :=
      (List.take_add _ _ _).symm
    have hnd' : (st.primary.rows.take limit ++
        (st.primary.rows.drop limit).take limit).Nodup := by
      rw [hcat]; exact (List.take_sublist _ _).nodup hnd
    exact (List.nodup_append.mp hnd').2.2

/-- Witness for C5: a three-row store with ids 1,2,3 and limit 2: the
first page is rows 1,2 with length 2 and the second page is row 3,
disjoint from the first. -/
theorem read_patients_pagination_witness :
    (read_patients 0 ((2 : Nat) : Int)
        ⟨⟨[⟨1, "A B", 40, "other", "55555"⟩, ⟨2, "C D", 41, "male", "66666"⟩,
          ⟨3, "E F", 42, "female", "77777"⟩], 4⟩, some []⟩).1
      = ListResponse.ok [⟨1, "A B", 40, "other", "55555"⟩,
          ⟨2, "C D", 41, "male", "66666"⟩] ∧
    (read_patients ((2 : Nat) : Int) ((2 : Nat) : Int)
        ⟨⟨[⟨1, "A B", 40, "other", "55555"⟩, ⟨2, "C D", 41, "male", "66666"⟩,
          ⟨3, "E F", 42, "female", "77777"⟩], 4⟩, some []⟩).1
      = ListResponse.ok [⟨3, "E F", 42, "female", "77777"⟩] := by
  have h := read_patients_pagination
    ⟨⟨[⟨1, "A B", 40, "other", "55555"⟩, ⟨2, "C D", 41, "male", "66666"⟩,
      ⟨3, "E F", 42, "female", "77777"⟩], 4⟩, some []⟩ 2
    (by decide) (by decide)
  exact ⟨by rw [h.1]; rfl, by rw [h.2.1]; rfl⟩

/-- C6: `read_patient id` on a store containing no row with that id
returns the 404 outcome with detail exactly "Patient not found"; on a
store containing such a row (ids being unique) it returns the 200 outcome
with that row's five fields; the ok and not-found outcomes are distinct
constructors. -/
theorem read_patient_found_or_404 (st : AppState) (pid : Int) :
    ((∀ r ∈ st.primary.rows, (r.id : Int) ≠ pid) →
      read_patient pid st = (GetResponse.notFound "Patient not found", st)) ∧
    (∀ r ∈ st.primary.rows, (st.primary.rows.map PatientRow.id).Nodup →
      (r.id : Int) = pid →
      read_patient pid st = (GetResponse.ok (patient_to_dict r), st)) ∧
    (∀ b d, GetResponse.ok b ≠ GetResponse.notFound d) := by
  refine ⟨?_, ?_, fun b d h => by cases h⟩
  · intro h
    have hnone : st.primary.rows.find?
        (fun r => (r.id : Int) == pid) = none := by
      rw [List.find?_eq_none]
      intro x hx
      simpa using h x hx
    simp [read_patient, hnone]
  · intro r hr hnd hid
    have hsome : (st.primary.rows.find?
        (fun r => (r.id : Int) == pid)).isSome := by
      rw [List.find?_isSome]
      exact ⟨r, hr, by simpa using hid⟩
    obtain ⟨a, ha⟩ := Option.isSome_iff_exists.mp hsome
    have haid : (a.id : Int) = pid := by simpa using List.find?_some ha
    have hamem : a ∈ st.primary.rows := List.mem_of_find?_eq_some ha
    have : a = r := by
      refine List.inj_on_of_nodup_map hnd hamem hr ?_
      have : (a.id : Int) = (r.id : Int) := by rw [haid, hid]
      exact_mod_cast this
    subst this
    simp [read_patient, ha]

/-- Witness for C6: on a one-row store, looking up the absent id 9999
gives the 404 with "Patient not found", and looking up the present id 1
gives the row. -/
theorem read_patient_found_or_404_witness :
    read_patient 9999 ⟨⟨[⟨1, "Test Patient", 30, "male", "1234567890"⟩], 2⟩,
        some []⟩
      = (GetResponse.notFound "Patient not found",
          ⟨⟨[⟨1, "Test Patient", 30, "male", "1234567890"⟩], 2⟩, some []⟩) ∧
    read_patient 1 ⟨⟨[⟨1, "Test Patient", 30, "male", "1234567890"⟩], 2⟩,
        some []⟩
      = (GetResponse.ok ⟨1, "Test Patient", 30, "male", "1234567890"⟩,
          ⟨⟨[⟨1, "Test Patient", 30, "male", "1234567890"⟩], 2⟩, some []⟩) :=
  ⟨(read_patient_found_or_404
      ⟨⟨[⟨1, "Test Patient", 30, "male", "1234567890"⟩], 2⟩, some []⟩
      9999).1 (by decide),
   (read_patient_found_or_404
      ⟨⟨[⟨1, "Test Patient", 30, "male", "1234567890"⟩], 2⟩, some []⟩
      1).2.1 ⟨1, "Test Patient", 30, "male", "1234567890"⟩
      (by decide) (by decide) (by decide)⟩

/-- C8: two successive `read_patient` calls with the same id and no
intervening write return the same response: the second call runs on the
state the first call handed back and yields the identical outcome. -/
theorem read_patient_idempotent (pid : Int) (st : AppState) :
    (read_patient pid ((read_patient pid st).2)).1
      = (read_patient pid st).1 := by
  cases h : st.primary.rows.find? (fun r => (r.id : Int) == pid) <;>
    simp [read_patient, h]

/-- C9: the read operations are state-preserving: `read_patients` and
`read_patient` return the two-store state exactly as they received it —
no record of the primary store is added, removed or modified and the
secondary store is never touched. -/
theorem reads_leave_state_unchanged (skip limit pid : Int) (st : AppState) :
    (read_patients skip limit st).2 = st ∧
    (read_patient pid st).2 = st := by
  refine ⟨rfl, ?_⟩
  cases h : st.primary.rows.find? (fun r => (r.id : Int) == pid) <;>
    simp [read_patient, h]

/-- C10: the listing endpoint declares no range validators on its
pagination parameters, so for every integer skip and limit — negative
values included — `read_patients` yields no validation error and hands
both values unchanged to the primary store's offset/limit query. -/
theorem read_patients_no_range_validation (skip limit : Int)
    (st : AppState) (fields : List String) :
    (read_patients skip limit st).1 ≠ ListResponse.validationError fields ∧
    read_patients skip limit st
      = (ListResponse.ok ((primary_list skip limit st.primary).map
          patient_to_dict), st) := by
  exact ⟨by simp [read_patients, skipValidators, limitValidators], rfl⟩

end PatientApp
